import Mathlib

/-!
Verification of the hikvideoctrl adapter library (a promise-based wrapper
around the Hikvision WebVideoCtrl browser plugin) against its
natural-language specification.

The development is a shallow embedding of the TypeScript sources:

* `Hik.Bridge`    — `src/core/WebVideoBridge.ts` (`exec`, settle-once guard,
                    caller-callback wrapping);
* `Hik.Bus`       — `src/core/EventBus.ts` (`on`, `off`, `emit`);
* `Hik.Host`      — `src/core/VideoPlayer.ts` (`PluginHost.init` lifecycle);
* `Hik.DeviceSvc` — `src/services/DeviceService.ts` (`disconnect`,
                    `getChannels`, channel parsing);
* `Hik.Util`      — the utils module (`normalizePort`,
                    `generateDeviceIdentify`, `parseDeviceIdentify`);
* `Hik.Client`    — `HikVideoClient` (the `ensureInitialized` guard).

JavaScript strings are embedded as lists of code points where character-level
reasoning is needed (`Hik.Util`), and as Lean `String`s elsewhere.  JavaScript
numbers are embedded as rationals plus explicit NaN/infinity constructors
where the distinction matters (`Hik.Util.JSNumber`).  Vendor-plugin behaviour
(callback invocations, synchronous return values, query results) is an
explicit environment parameter, since the plugin is an external collaborator.
-/

namespace Hik

/-- Error codes of `HikSDKError` (src/errors.ts, `HikSDKErrorCode`). -/
inductive ErrorCode
  | sdkNotFound
  | sdkMethodMissing
  | sdkCallFailed
  | sdkInitialization
  | validation
  | notInitialized
  | deviceNotFound
  | windowState
  | operationFailed
  deriving DecidableEq, Repr

/-- A `HikSDKError` as thrown by the library: its code plus the numeric
detail payload relevant to the claims (the raw result passed to
`createOperationError`). -/
structure HikError where
  code : ErrorCode
  detail : Option Int
  deriving DecidableEq, Repr

/-- Decidable equality for `Except`, needed by the derived instances on the
structures below. -/
instance instExceptDecEq {ε α : Type} [DecidableEq ε] [DecidableEq α] :
    DecidableEq (Except ε α) := fun x y =>
  match x, y with
  | .ok a, .ok b => decidable_of_iff (a = b) (by simp)
  | .ok _, .error _ => isFalse (by simp)
  | .error _, .ok _ => isFalse (by simp)
  | .error e, .error f => decidable_of_iff (e = f) (by simp)

/-! ## Bridge adapter (src/core/WebVideoBridge.ts) -/

namespace Bridge

/-- Synchronous JavaScript values as far as `exec` inspects them:
`undefined`, numbers, and any other (non-undefined, non-numeric) value,
abstracted by a tag. -/
inductive JSValue
  | undef
  | num (n : Int)
  | other (tag : Nat)
  deriving DecidableEq, Repr

/-- The data of `createBridgeError` (WebVideoBridge.ts:16-33): the vendor
method name, the numeric status if present, the serialized diagnostic
document and the native error payload (both abstracted by tags). -/
structure BridgeError where
  method : String
  status : Option Int
  xml : Option Nat
  native : Option Nat
  deriving DecidableEq, Repr

/-- One invocation of the adapter's synthetic `success`/`error` callback by
the vendor plugin. -/
inductive VendorSignal
  | success (payload : JSValue)
  | failure (status : Int) (xml : Option Nat) (native : Option Nat)
  deriving DecidableEq, Repr

/-- How the vendor method behaves on one `exec` call: the callback
invocations it makes during the synchronous `fn.apply`, the synchronous
outcome of `fn.apply` (an exception tag, or a returned value), and the
callback invocations it makes after `fn.apply` has returned. -/
structure VendorBehavior where
  duringCall : List VendorSignal
  result : Except Nat JSValue
  afterCall : List VendorSignal
  deriving DecidableEq, Repr

/-- The outcome a single completion signal would settle the promise with
(`resolveOnce` payload, or `rejectOnce` of `createBridgeError(method,
status, xmlDoc, nativeError)`). -/
def signalOutcome (method : String) : VendorSignal → Except BridgeError JSValue
  | .success p => .ok p
  | .failure st xml native => .error ⟨method, some st, xml, native⟩

/-- The settle-once guard (`resolveOnce` / `rejectOnce`,
WebVideoBridge.ts:63-75): the first recorded outcome wins, later ones are
dropped. -/
def settleStep (st : Option (Except BridgeError JSValue))
    (o : Except BridgeError JSValue) : Option (Except BridgeError JSValue) :=
  match st with
  | some r => some r
  | none => some o

/-- Feed a list of vendor callback invocations through the settle-once
guard. -/
def runSignals (method : String) (st : Option (Except BridgeError JSValue))
    (sigs : List VendorSignal) : Option (Except BridgeError JSValue) :=
  sigs.foldl (fun s sig => settleStep s (signalOutcome method sig)) st

/-- The synchronous-return inspection after `fn.apply`
(WebVideoBridge.ts:100-115): a thrown exception rejects; otherwise, if the
promise is not yet settled, a numeric return equal to `-1` rejects, any
other number resolves, any other non-undefined value resolves, and
`undefined` leaves the promise pending. -/
def returnPhase (method : String) (st : Option (Except BridgeError JSValue))
    (res : Except Nat JSValue) : Option (Except BridgeError JSValue) :=
  match res with
  | .error e => settleStep st (.error ⟨method, none, none, some e⟩)
  | .ok v =>
    match st with
    | some r => some r
    | none =>
      match v with
      | .num n =>
          some (if n = -1 then .error ⟨method, some n, none, none⟩ else .ok (.num n))
      | .undef => none
      | .other t => some (.ok (.other t))

/-- The final settlement of the promise produced by
`WebVideoBridge.exec(method, ...)` for a given vendor behaviour (`none`
means the promise never settles). -/
def execOutcome (method : String) (b : VendorBehavior) :
    Option (Except BridgeError JSValue) :=
  runSignals method
    (returnPhase method (runSignals method none b.duringCall) b.result)
    b.afterCall

/-- The completion signals of one `exec` call, in the order the adapter can
observe them: callbacks fired during `fn.apply`, then the synchronous
outcome of `fn.apply` (which contributes no signal when it returns
`undefined`), then callbacks fired afterwards. -/
def returnSignalOutcomes (method : String) :
    Except Nat JSValue → List (Except BridgeError JSValue)
  | .error e => [.error ⟨method, none, none, some e⟩]
  | .ok .undef => []
  | .ok (.num n) =>
      [if n = -1 then .error ⟨method, some n, none, none⟩ else .ok (.num n)]
  | .ok (.other t) => [.ok (.other t)]

/-- All completion signals of one `exec` call, in observation order. -/
def completionOutcomes (method : String) (b : VendorBehavior) :
    List (Except BridgeError JSValue) :=
  b.duringCall.map (signalOutcome method)
    ++ returnSignalOutcomes method b.result
    ++ b.afterCall.map (signalOutcome method)

/-- Shape of the last argument passed to `exec`, as far as the
`isPlainObject` / `success`-or-`error`-key inspection
(WebVideoBridge.ts:12-14, 77-78) distinguishes shapes. -/
inductive LastArg
  | missing
  | nullValue
  | array
  | primitive
  | plainObj (hasSuccess hasError : Bool)
  deriving DecidableEq, Repr

/-- Whether `exec` takes the wrapping branch (last argument is a plain
object that already carries a `success` and/or `error` key) rather than
appending its own callback object. -/
def usesCallerWrapping : LastArg → Bool
  | .plainObj hasS hasE => hasS || hasE
  | _ => false

/-- Observable events of one `exec` call in the wrapping branch: the
caller's original `success`/`error` callback firing, and the promise
settling. -/
inductive WrapEvent
  | callerSuccess (payload : JSValue)
  | callerError (status : Int)
  | settled (outcome : Except BridgeError JSValue)
  deriving DecidableEq, Repr

/-- One vendor callback invocation in the wrapping branch
(WebVideoBridge.ts:80-90): the caller's original callback (if supplied) is
invoked first — on every invocation, unguarded — and then the settle-once
guard records the outcome. -/
def wrapSignal (hasS hasE : Bool) (method : String)
    (st : Option (Except BridgeError JSValue)) (sig : VendorSignal) :
    List WrapEvent × Option (Except BridgeError JSValue) :=
  match sig with
  | .success p =>
      ((if hasS then [WrapEvent.callerSuccess p] else [])
         ++ (match st with
             | none => [WrapEvent.settled (.ok p)]
             | some _ => []),
       settleStep st (.ok p))
  | .failure s x nv =>
      ((if hasE then [WrapEvent.callerError s] else [])
         ++ (match st with
             | none => [WrapEvent.settled (.error ⟨method, some s, x, nv⟩)]
             | some _ => []),
       settleStep st (.error ⟨method, some s, x, nv⟩))

/-- Fold a list of vendor callback invocations in the wrapping branch,
accumulating the event trace. -/
def runWrapSignals (hasS hasE : Bool) (method : String)
    (acc : List WrapEvent × Option (Except BridgeError JSValue))
    (sigs : List VendorSignal) :
    List WrapEvent × Option (Except BridgeError JSValue) :=
  sigs.foldl
    (fun a sig =>
      let r := wrapSignal hasS hasE method a.2 sig
      (a.1 ++ r.1, r.2))
    acc

/-- The synchronous-return inspection in the wrapping branch; it settles
the promise (recorded in the trace) but never invokes the caller's
callbacks. -/
def wrapReturnPhase (method : String)
    (acc : List WrapEvent × Option (Except BridgeError JSValue))
    (res : Except Nat JSValue) :
    List WrapEvent × Option (Except BridgeError JSValue) :=
  match res with
  | .error e =>
      (acc.1 ++ (match acc.2 with
                 | none => [WrapEvent.settled (.error ⟨method, none, none, some e⟩)]
                 | some _ => []),
       settleStep acc.2 (.error ⟨method, none, none, some e⟩))
  | .ok v =>
    match acc.2 with
    | some r => (acc.1, some r)
    | none =>
      match v with
      | .num n =>
          ((acc.1 ++ [WrapEvent.settled
              (if n = -1 then .error ⟨method, some n, none, none⟩
               else .ok (.num n))]),
           some (if n = -1 then .error ⟨method, some n, none, none⟩
                 else .ok (.num n)))
      | .undef => (acc.1, none)
      | .other t =>
          (acc.1 ++ [WrapEvent.settled (.ok (.other t))], some (.ok (.other t)))

/-- Full trace and settlement of one `exec` call in the wrapping branch,
for a caller who supplied a `success` callback iff `hasS` and an `error`
callback iff `hasE`. -/
def execWrapRun (method : String) (hasS hasE : Bool) (b : VendorBehavior) :
    List WrapEvent × Option (Except BridgeError JSValue) :=
  runWrapSignals hasS hasE method
    (wrapReturnPhase method
      (runWrapSignals hasS hasE method ([], none) b.duringCall)
      b.result)
    b.afterCall

end Bridge

/-! ## Event bus (src/core/EventBus.ts) -/

namespace Bus

/-- Handler references are abstracted by numeric identity (JavaScript
function identity). -/
abbrev HandlerId := Nat

/-- The listener map: event name to the ordered, duplicate-free handler set
(a JavaScript `Map` of `Set`s, both insertion-ordered). -/
abbrev BusState := List (String × List HandlerId)

/-- Listener lookup (`this.listeners.get(event)`, absent key gives the
empty set). -/
def busGet (bus : BusState) (e : String) : List HandlerId :=
  match bus with
  | [] => []
  | (k, v) :: rest => if k = e then v else busGet rest e

/-- Listener update (`this.listeners.set(event, set)`): replace the entry
for the key, or append a new entry. -/
def busSet (bus : BusState) (e : String) (v : List HandlerId) : BusState :=
  match bus with
  | [] => [(e, v)]
  | (k, w) :: rest => if k = e then (e, v) :: rest else (k, w) :: busSet rest e v

/-- `Set.add`: appends the handler unless it is already present. -/
def addHandler (l : List HandlerId) (h : HandlerId) : List HandlerId :=
  if h ∈ l then l else l ++ [h]

/-- `EventBus.on` (EventBus.ts:44-49): fetch-or-create the set, add the
handler, store the set back. -/
def busOn (bus : BusState) (e : String) (h : HandlerId) : BusState :=
  busSet bus e (addHandler (busGet bus e) h)

/-- `EventBus.off` with an explicit handler (EventBus.ts:83-101): remove
the handler from the set, deleting the event entry when the set becomes
empty. -/
def busOff (bus : BusState) (e : String) (h : HandlerId) : BusState :=
  match bus with
  | [] => []
  | (k, v) :: rest =>
    if k = e then
      (if v.erase h = [] then rest else (k, v.erase h) :: rest)
    else (k, v) :: busOff rest e h

/-- The delivery loop of `EventBus.emit` (EventBus.ts:118-120): iterate the
snapshot list taken at the start of the emit, applying each handler's
effect on the bus (a handler may subscribe/unsubscribe during delivery);
returns the final bus and the handlers invoked, in order. -/
def deliverAll (effect : HandlerId → BusState → BusState) :
    List HandlerId → BusState → BusState × List HandlerId
  | [], b => (b, [])
  | h :: t, b =>
    let b2 := effect h b
    let r := deliverAll effect t b2
    (r.1, h :: r.2)

/-- `EventBus.emit`: snapshot the current handler set (`Array.from(set)`)
and deliver to the snapshot. -/
def busEmit (effect : HandlerId → BusState → BusState) (bus : BusState)
    (e : String) : BusState × List HandlerId :=
  deliverAll effect (busGet bus e) bus

/-- Well-formedness of the listener map: each handler set is duplicate-free
(the JavaScript `Set` invariant). -/
def busWF (bus : BusState) : Prop := ∀ p ∈ bus, List.Nodup p.2

/-- One handler invocation as observed during delivery: its identity plus
whether the invocation returned normally or threw (exception abstracted by
a tag). -/
structure HandlerRun where
  hid : HandlerId
  outcome : Except Nat Unit
  deriving DecidableEq, Repr

/-- The delivery loop of `emit` with throwing handlers: `for (const handler
of Array.from(set)) handler(payload)` has no exception isolation, so the
first handler that throws aborts the loop and the exception propagates out
of `emit`.  Returns the handlers actually invoked (in order) and the
escaped exception, if any. -/
def emitDeliver : List HandlerRun → List HandlerId × Option Nat
  | [] => ([], none)
  | h :: t =>
    match h.outcome with
    | .error ex => ([h.hid], some ex)
    | .ok _ =>
      let r := emitDeliver t
      (h.hid :: r.1, r.2)

/-- `emit` on a bus whose handlers behave as `outcomeOf` prescribes when
invoked: delivery runs over the snapshot of the event's handler set. -/
def busEmitRun (outcomeOf : HandlerId → Except Nat Unit) (bus : BusState)
    (e : String) : List HandlerId × Option Nat :=
  emitDeliver ((busGet bus e).map (fun h => ⟨h, outcomeOf h⟩))

/-- Concrete bus for the C4 counterexample: one event with two subscribed
handlers. -/
def cexBus : BusState := [("plugin:event", [1, 2])]

/-- Concrete handler behaviour for the C4 counterexample: handler 1 throws
(exception tag 7), handler 2 returns normally. -/
def cexOutcome (h : HandlerId) : Except Nat Unit :=
  if h = 1 then .error 7 else .ok ()

end Bus

/-! ## Plugin host lifecycle (src/core/VideoPlayer.ts, `PluginHost`) -/

namespace Host

/-- The lifecycle state `PluginHost` keeps, plus an instrumentation counter
for how often the vendor `I_InitPlugin` method has been invoked.  The
source keeps only the boolean `initialized` flag, set to `true` inside the
`cbInitPluginComplete` callback. -/
structure HostState where
  initialized : Bool
  initPluginCalls : Nat
  deriving DecidableEq, Repr

/-- State of a freshly constructed `PluginHost`. -/
def initialHostState : HostState := ⟨false, 0⟩

/-- The two events that drive the lifecycle: a caller invoking
`PluginHost.init`, and the vendor firing `cbInitPluginComplete`. -/
inductive HostEvent
  | callInit
  | initComplete
  deriving DecidableEq, Repr

/-- One lifecycle step.  `init` (VideoPlayer.ts `PluginHost.init`) throws
the `sdk-initialization` error when `initialized` is already `true` and
otherwise invokes the vendor `I_InitPlugin`; `cbInitPluginComplete` flips
`initialized` to `true`.  The second component is the error produced by the
step, if any. -/
def hostStep (s : HostState) : HostEvent → HostState × Option ErrorCode
  | .callInit =>
    if s.initialized then (s, some .sdkInitialization)
    else ({ s with initPluginCalls := s.initPluginCalls + 1 }, none)
  | .initComplete => ({ s with initialized := true }, none)

/-- Run a sequence of lifecycle events, collecting the per-event errors. -/
def hostRun (s : HostState) : List HostEvent → HostState × List (Option ErrorCode)
  | [] => (s, [])
  | e :: es =>
    let r := hostStep s e
    let rest := hostRun r.1 es
    (rest.1, r.2 :: rest.2)

end Host

/-! ## Device service (src/services/DeviceService.ts) -/

namespace DeviceSvc

/-- A device session as stored in the registry
(src/types, `DeviceSession`). -/
structure DeviceSession where
  id : String
  host : String
  port : Nat
  username : String
  deriving DecidableEq, Repr

/-- The registry `this.devices`: a `Map` from device id to session
(insertion-ordered, keys unique). -/
abbrev Registry := List (String × DeviceSession)

/-- Registry membership test (`this.devices.has(deviceId)`). -/
def hasDevice (devices : Registry) (deviceId : String) : Bool :=
  devices.any (fun p => p.1 == deviceId)

/-- Registry removal (`this.devices.delete(deviceId)`). -/
def removeDevice (devices : Registry) (deviceId : String) : Registry :=
  devices.filter (fun p => !(p.1 == deviceId))

/-- One entry of the plugin's live window set (`I_GetWndSet`), as far as
`stopStreams` reads it. -/
structure WindowInfo where
  iIndex : Nat
  szDeviceIdentify : String
  deriving DecidableEq, Repr

/-- Environment of one `disconnect` call: the synchronous result of the
vendor `I_Logout` call, the plugin's live window set, and which per-window
cleanup calls fail (throw). -/
structure DiscEnv where
  logoutResult : Int
  windows : List WindowInfo
  stopFails : Nat → Bool
  keyFails : Nat → Bool

/-- The observable steps of one `disconnect` call, in execution order. -/
inductive DiscStep
  | callLogout (deviceId : String)
  | callStop (windowIndex : Nat)
  | callSetSecretKey (windowIndex : Nat)
  | registryRemove (deviceId : String)
  | publishDisconnected (deviceId : String)
  deriving DecidableEq, Repr

/-- Cleanup of one related window (DeviceService.ts:235-243): `I_Stop`,
then `I_SetSecretKey('', index)`; a failure of either is caught and
swallowed (and a failed `I_Stop` skips the key call for that window). -/
def cleanupWindow (env : DiscEnv) (w : WindowInfo) : List DiscStep :=
  if env.stopFails w.iIndex then [.callStop w.iIndex]
  else [.callStop w.iIndex, .callSetSecretKey w.iIndex]

/-- `DeviceService.stopStreams` (DeviceService.ts:231-244): filter the live
window set to the windows whose recorded device identifier equals the
device id, and clean up each. -/
def stopStreams (env : DiscEnv) (deviceId : String) : List DiscStep :=
  ((env.windows.filter (fun w => w.szDeviceIdentify == deviceId)).map
    (cleanupWindow env)).flatten

/-- `DeviceService.disconnect` (DeviceService.ts:79-90).  Returns the call
outcome, the registry afterwards, and the observable step trace. -/
def disconnect (env : DiscEnv) (devices : Registry) (deviceId : String) :
    Except HikError Unit × Registry × List DiscStep :=
  if hasDevice devices deviceId = false then
    (.error ⟨.deviceNotFound, none⟩, devices, [])
  else if env.logoutResult ≠ 0 then
    (.error ⟨.operationFailed, some env.logoutResult⟩, devices,
      [.callLogout deviceId])
  else
    (.ok (), removeDevice devices deviceId,
      .callLogout deviceId ::
        (stopStreams env deviceId
          ++ [.registryRemove deviceId, .publishDisconnected deviceId]))

/-! ### Channel discovery (`getChannels` and the channel parsers) -/

/-- Channel class labels (`ChannelInfo['type']`). -/
inductive ChannelType
  | analog
  | digital
  | zero
  deriving DecidableEq, Repr

/-- A parsed channel (src/types, `ChannelInfo`). -/
structure ChannelInfo where
  id : String
  name : String
  type : ChannelType
  isZero : Bool
  online : Bool
  deriving DecidableEq, Repr

/-- One XML channel node as far as the parsers read it: the text content of
the `id`, `name`, `online` and `enabled` child elements (`none` = element
absent). -/
structure ChannelNode where
  id : Option String
  name : Option String
  online : Option String
  enabled : Option String
  deriving DecidableEq, Repr

/-- JavaScript `String.prototype.padStart(2, '0')`. -/
def padStart2 (s : String) : String :=
  if s.length = 0 then "00" else if s.length = 1 then "0" ++ s else s

/-- The generated fallback channel name: the class label, a space, and the
two-digit one-based sequence number (`index` is zero-based). -/
def seqName (label : String) (index : Nat) : String :=
  label ++ " " ++ padStart2 (toString (index + 1))

/-- A `.map((node, index) => ...)` with the running index made explicit. -/
def mapWithIndex {α β : Type} (f : Nat → α → β) : Nat → List α → List β
  | _, [] => []
  | i, a :: t => f i a :: mapWithIndex f (i + 1) t

/-- `parseAnalogChannels` (DeviceService.ts:200-207): every node yields a
channel; a missing name becomes `"Camera NN"`. -/
def parseAnalogChannels (nodes : List ChannelNode) : List ChannelInfo :=
  mapWithIndex
    (fun i n => ⟨n.id.getD "", n.name.getD (seqName "Camera" i), .analog, false, true⟩)
    0 nodes

/-- `parseDigitalChannels` (DeviceService.ts:209-218): keep only nodes
whose `online` text is `"true"`, then number and name the survivors; a
missing name becomes `"IPCamera NN"`. -/
def parseDigitalChannels (nodes : List ChannelNode) : List ChannelInfo :=
  mapWithIndex
    (fun i n => ⟨n.id.getD "", n.name.getD (seqName "IPCamera" i), .digital, false, true⟩)
    0 (nodes.filter (fun n => n.online == some "true"))

/-- `parseZeroChannels` (DeviceService.ts:220-229): keep only nodes whose
`enabled` text is `"true"`; a missing name becomes `"Zero Channel NN"`. -/
def parseZeroChannels (nodes : List ChannelNode) : List ChannelInfo :=
  mapWithIndex
    (fun i n => ⟨n.id.getD "", n.name.getD (seqName "Zero Channel" i), .zero, true, true⟩)
    0 (nodes.filter (fun n => n.enabled == some "true"))

/-- The three per-class query results of one `getChannels` call.  `none`
models `safeGetXml` returning `null` because the vendor query failed
(DeviceService.ts:190-198). -/
structure ChannelEnv where
  analogDoc : Option (List ChannelNode)
  digitalDoc : Option (List ChannelNode)
  zeroDoc : Option (List ChannelNode)
  deriving DecidableEq, Repr

/-- Contribution of one channel class: a failed query (`null` document)
contributes no channels (`if (doc) channels.push(...)`). -/
def classChannels (parse : List ChannelNode → List ChannelInfo)
    (doc : Option (List ChannelNode)) : List ChannelInfo :=
  match doc with
  | none => []
  | some nodes => parse nodes

/-- `DeviceService.getChannels` (DeviceService.ts:105-122): an unregistered
id fails with `device-not-found`; otherwise the analog, digital and zero
contributions are concatenated in that order. -/
def getChannels (env : ChannelEnv) (devices : Registry) (deviceId : String) :
    Except HikError (List ChannelInfo) :=
  if hasDevice devices deviceId = false then .error ⟨.deviceNotFound, none⟩
  else
    .ok (classChannels parseAnalogChannels env.analogDoc
      ++ classChannels parseDigitalChannels env.digitalDoc
      ++ classChannels parseZeroChannels env.zeroDoc)

end DeviceSvc

/-! ## Utilities (src/utils: `normalizePort`, `generateDeviceIdentify`,
`parseDeviceIdentify`) -/

namespace Util

/-- A JavaScript number as far as `normalizePort` distinguishes values:
a finite number (embedded as a rational), NaN, or an infinity. -/
inductive JSNumber
  | finite (q : ℚ)
  | nan
  | posInf
  | negInf
  deriving DecidableEq

/-- `Math.trunc` on a finite number: round toward zero.  `Int.tdiv` is
truncated division, so dividing the numerator by the denominator with it is
exactly truncation toward zero. -/
def jsTrunc (q : ℚ) : ℤ := Int.tdiv q.num (q.den : ℤ)

/-- `Number.isInteger`. -/
def isInteger : JSNumber → Bool
  | .finite q => q.den == 1
  | _ => false

/-- JavaScript `<=` on numbers: false whenever either side is NaN, ordered
comparison otherwise (infinities behave as extremes). -/
def jsLe : JSNumber → JSNumber → Bool
  | .nan, _ => false
  | _, .nan => false
  | .negInf, _ => true
  | _, .posInf => true
  | .posInf, _ => false
  | _, .negInf => false
  | .finite a, .finite b => decide (a ≤ b)

/-- `isValidPort` (utils): `Number.isInteger(port) && port >= 1 && port <=
65535`. -/
def isValidPort (p : JSNumber) : Bool :=
  isInteger p && jsLe (.finite 1) p && jsLe p (.finite 65535)

/-- The JavaScript error classes `normalizePort` throws. -/
inductive JsRuntimeError
  | typeError
  | rangeError
  deriving DecidableEq, Repr

/-- `normalizePort` (utils): reject non-finite input with a `TypeError`,
truncate toward zero with `Math.trunc`, then validate the truncated value
with `isValidPort`, rejecting with a `RangeError` when it is out of
range. -/
def normalizePort : JSNumber → Except JsRuntimeError JSNumber
  | .nan => .error .typeError
  | .posInf => .error .typeError
  | .negInf => .error .typeError
  | .finite q =>
    let v : ℤ := jsTrunc q
    if isValidPort (.finite (v : ℚ)) then .ok (.finite (v : ℚ))
    else .error .rangeError

/-- The rational `161/2 = 80.5`, written with the explicit constructor so
that it evaluates by kernel reduction; input of the C6 counterexample. -/
def eightyAndHalf : ℚ := ⟨161, 2, by decide, by decide⟩

/-- JavaScript strings embedded as lists of code points. -/
abbrev JsString := List Nat

/-- The code point of the separator `'_'`. -/
def underscoreCode : Nat := 95

/-- Decimal digit test on code points (`'0'` = 48, `'9'` = 57). -/
def isDigitCode (c : Nat) : Bool := 48 ≤ c && c ≤ 57

/-- JavaScript `String.prototype.split(sep)` for a single-character
separator: split at every occurrence; always yields at least one (possibly
empty) part. -/
def jsSplitOn (sep : Nat) : JsString → List JsString
  | [] => [[]]
  | c :: cs =>
    if c = sep then [] :: jsSplitOn sep cs
    else
      match jsSplitOn sep cs with
      | [] => [[c]]
      | part :: parts => (c :: part) :: parts

/-- The decimal representation of a natural number as code points
(JavaScript number-to-string conversion for non-negative integers). -/
def natToChars (n : Nat) : JsString :=
  if n < 10 then [48 + n] else natToChars (n / 10) ++ [48 + n % 10]
termination_by n
decreasing_by exact Nat.div_lt_self (by omega) (by omega)

/-- `generateDeviceIdentify(host, port)` (utils): the template literal
`` `${host}_${port}` ``. -/
def generateDeviceIdentify (host : JsString) (port : Nat) : JsString :=
  host ++ underscoreCode :: natToChars port

/-- Accumulate the value of a run of decimal digit code points. -/
def digitsVal (l : JsString) : Nat :=
  l.foldl (fun a c => a * 10 + (c - 48)) 0

/-- Parse the maximal leading run of decimal digits; `none` when there is
no leading digit (the `NaN` case of `parseInt`). -/
def parseDigitsOpt (cs : JsString) : Option Nat :=
  let ds := cs.takeWhile isDigitCode
  if ds.isEmpty then none else some (digitsVal ds)

/-- `Number.parseInt(s, 10)`: skip leading spaces, accept an optional sign,
then read the maximal decimal-digit prefix; `none` models `NaN`. -/
def jsParseInt10 (s : JsString) : Option Int :=
  let t := s.dropWhile (fun c => c = 32)
  match t with
  | [] => none
  | c :: rest =>
    if c = 45 then (parseDigitsOpt rest).map (fun m : Nat => -(m : Int))
    else if c = 43 then (parseDigitsOpt rest).map (fun m : Nat => (m : Int))
    else (parseDigitsOpt t).map (fun m : Nat => (m : Int))

/-- `parseDeviceIdentify(deviceIdentify)` (utils): destructure the split as
`[host, portText]` and compute `Number.parseInt(portText ?? '80', 10) ||
80` (so a missing part, an unparsable part, and a parsed value of `0` all
fall back to `80`). -/
def parseDeviceIdentify (s : JsString) : JsString × Int :=
  let parts := jsSplitOn underscoreCode s
  let host := parts.headD []
  let portText := (parts.drop 1).head?
  let parsed := jsParseInt10 (portText.getD (natToChars 80))
  let port : Int :=
    match parsed with
    | none => 80
    | some v => if v = 0 then 80 else v
  (host, port)

end Util

/-! ## Client facade (`HikVideoClient`) -/

namespace Client

/-- The `HikVideoClient` operations the claims range over: the
device/stream operations that call `ensureInitialized` first, plus the
members usable before initialization. -/
inductive ClientOp
  | connectDevice
  | disconnectDevice
  | getDeviceInfo
  | getChannels
  | startPreview
  | startPlayback
  | ptzControl
  | startRecording
  | capture
  | setSecretKey
  | changeWindowLayout
  | getWindowSet
  | listDevices
  | getDevice
  | subscribeOn
  | unsubscribeOff
  | supportsNoPlugin
  deriving DecidableEq, Repr

/-- Environment of one client operation: the registry, the device id
argument, the vendor behaviour for `disconnect` and `getChannels`, whether
the credentials pass validation, and whether the caller supplied an
explicit RTSP port (otherwise the video service looks it up through
`I_GetDevicePort`). -/
structure ClientEnv where
  devices : DeviceSvc.Registry
  targetDevice : String
  discEnv : DeviceSvc.DiscEnv
  channelEnv : DeviceSvc.ChannelEnv
  credValid : Bool
  hasExplicitPort : Bool

/-- `HikVideoClient.ensureInitialized`: throws the `not-initialized`
`HikSDKError` when the plugin host is not yet Ready. -/
def ensureInitialized (initialized : Bool) : Except HikError Unit :=
  if initialized = false then .error ⟨.notInitialized, none⟩ else .ok ()

/-- Guard-then-delegate: the body runs only when `ensureInitialized`
succeeded, so a guarded method performs no vendor call when
uninitialized. -/
def withInit (initialized : Bool) (body : Except HikError Unit × List String) :
    Except HikError Unit × List String :=
  match ensureInitialized initialized with
  | .error e => (.error e, [])
  | .ok _ => body

/-- The vendor calls a disconnect step performs (registry mutation and
event publication are not vendor calls). -/
def discStepCalls : DeviceSvc.DiscStep → List String
  | .callLogout _ => ["I_Logout"]
  | .callStop _ => ["I_Stop"]
  | .callSetSecretKey _ => ["I_SetSecretKey"]
  | .registryRemove _ => []
  | .publishDisconnected _ => []

/-- One `HikVideoClient` operation: result and the trace of vendor-plugin
method names invoked.  Every device/stream operation calls
`ensureInitialized` before anything else (part_005:338-341); the
registry readers, event subscription and `supportsNoPlugin` do not. -/
def runOp (initialized : Bool) (op : ClientOp) (env : ClientEnv) :
    Except HikError Unit × List String :=
  match op with
  | .listDevices => (.ok (), [])
  | .getDevice => (.ok (), [])
  | .subscribeOn => (.ok (), [])
  | .unsubscribeOff => (.ok (), [])
  | .supportsNoPlugin => (.ok (), ["I_SupportNoPlugin"])
  | .connectDevice =>
      withInit initialized
        (if env.credValid then (.ok (), ["I_Login"])
         else (.error ⟨.validation, none⟩, []))
  | .disconnectDevice =>
      withInit initialized
        (let r := DeviceSvc.disconnect env.discEnv env.devices env.targetDevice
         (r.1, (r.2.2.map discStepCalls).flatten))
  | .getDeviceInfo =>
      withInit initialized
        (if DeviceSvc.hasDevice env.devices env.targetDevice then
           (.ok (), ["I_GetDeviceInfo"])
         else (.error ⟨.deviceNotFound, none⟩, []))
  | .getChannels =>
      withInit initialized
        (match DeviceSvc.getChannels env.channelEnv env.devices env.targetDevice with
         | .ok _ =>
             (.ok (), ["I_GetAnalogChannelInfo", "I_GetDigitalChannelInfo",
               "I_GetZeroChannelInfo"])
         | .error e => (.error e, []))
  | .startPreview =>
      withInit initialized
        (.ok (), (if env.hasExplicitPort then [] else ["I_GetDevicePort"])
          ++ ["I_StartRealPlay"])
  | .startPlayback =>
      withInit initialized
        (.ok (), (if env.hasExplicitPort then [] else ["I_GetDevicePort"])
          ++ ["I_StartPlayback"])
  | .ptzControl => withInit initialized (.ok (), ["I_PTZControl"])
  | .startRecording => withInit initialized (.ok (), ["I_StartRecord"])
  | .capture => withInit initialized (.ok (), ["I2_CapturePic"])
  | .setSecretKey => withInit initialized (.ok (), ["I_SetSecretKey"])
  | .changeWindowLayout => withInit initialized (.ok (), ["I_ChangeWndNum"])
  | .getWindowSet => withInit initialized (.ok (), ["I_GetWndSet"])

/-- The operations that call `ensureInitialized` first. -/
def guardedOps : List ClientOp :=
  [.connectDevice, .disconnectDevice, .getDeviceInfo, .getChannels,
   .startPreview, .startPlayback, .ptzControl, .startRecording, .capture,
   .setSecretKey, .changeWindowLayout, .getWindowSet]

/-- The members usable before initialization. -/
def openOps : List ClientOp :=
  [.listDevices, .getDevice, .subscribeOn, .unsubscribeOff, .supportsNoPlugin]

/-- A concrete environment for witnesses. -/
def sampleEnv : ClientEnv :=
  { devices := [("10.0.0.5_80", ⟨"10.0.0.5_80", "10.0.0.5", 80, "admin"⟩)]
    targetDevice := "10.0.0.5_80"
    discEnv :=
      { logoutResult := 0
        windows := [⟨0, "10.0.0.5_80"⟩]
        stopFails := fun _ => false
        keyFails := fun _ => false }
    channelEnv := { analogDoc := none, digitalDoc := none, zeroDoc := none }
    credValid := true
    hasExplicitPort := true }

end Client

end Hik

/-! # Theorems -/

namespace Hik.Bridge

/-- Feeding more signals into an already settled guard changes nothing. -/
theorem runSignals_some (m : String) (r : Except BridgeError JSValue)
    (l : List VendorSignal) : runSignals m (some r) l = some r := by
  induction l with
  | nil => rfl
  | cons a t ih =>
    simp only [runSignals, List.foldl_cons, settleStep]
    exact ih

/-- On an unsettled guard, the first signal wins. -/
theorem runSignals_none (m : String) (l : List VendorSignal) :
    runSignals m none l = (l.map (signalOutcome m)).head? := by
  cases l with
  | nil => rfl
  | cons a t =>
    simp only [runSignals, List.foldl_cons, settleStep, List.map_cons,
      List.head?_cons]
    exact runSignals_some m (signalOutcome m a) t

/-- The synchronous-return inspection never overrides a settled guard. -/
theorem returnPhase_some (m : String) (r : Except BridgeError JSValue)
    (res : Except Nat JSValue) : returnPhase m (some r) res = some r := by
  cases res with
  | error e => rfl
  | ok v => cases v <;> rfl

/-- On an unsettled guard, the synchronous-return inspection settles with
the return signal if there is one. -/
theorem returnPhase_none (m : String) (res : Except Nat JSValue) :
    returnPhase m none res = (returnSignalOutcomes m res).head? := by
  cases res with
  | error e => rfl
  | ok v => cases v <;> rfl

/-- C1: for every `WebVideoBridge.exec(method, ...args)` call, the promise
settles with the first completion signal the adapter observes — vendor
success callback, vendor error callback, a thrown `fn.apply`, or a
synchronous non-undefined return value, in observation order — and every
later completion signal is ignored; and a synchronous return value of `-1`
alone rejects the promise with the `sdk-call-failed` bridge error even when
no vendor callback ever fires. -/
theorem c1_exec_settles_first_signal_once :
    (∀ (method : String) (b : VendorBehavior),
      execOutcome method b = (completionOutcomes method b).head?)
    ∧ (∀ method : String,
      execOutcome method ⟨[], .ok (.num (-1)), []⟩
        = some (.error ⟨method, some (-1), none, none⟩)) := by
  constructor
  · intro m b
    cases hd : b.duringCall with
    | cons s t =>
      have h1 : runSignals m none (s :: t) = some (signalOutcome m s) := by
        rw [runSignals_none]; rfl
      simp only [execOutcome, completionOutcomes, hd, h1, returnPhase_some,
        runSignals_some, List.map_cons, List.cons_append, List.head?_cons]
    | nil =>
      have h1 : runSignals m none ([] : List VendorSignal) = none := rfl
      simp only [execOutcome, completionOutcomes, hd, h1, returnPhase_none,
        List.map_nil, List.nil_append]
      cases hr : returnSignalOutcomes m b.result with
      | nil => simp only [List.head?_nil, runSignals_none, List.nil_append]
      | cons o rest =>
        simp only [List.head?_cons, runSignals_some, List.cons_append,
          List.head?_cons]
  · intro m
    rfl

/-- C5: when the last argument of `exec` is a plain object carrying a
`success` and/or `error` key, the adapter wraps the caller's callbacks
rather than discarding them (the detection conjuncts), and when the vendor
fires the synthetic success callback exactly once with a payload, the
caller's original success callback observes the payload exactly once,
before the promise settles, and the promise resolves with the same payload
exactly once (the trace is exactly one caller-callback event followed by
one resolution event). -/
theorem c5_exec_wrapping_delivers_payload_once :
    (∀ hasS hasE : Bool,
      usesCallerWrapping (.plainObj hasS hasE) = (hasS || hasE))
    ∧ usesCallerWrapping .array = false
    ∧ usesCallerWrapping .primitive = false
    ∧ usesCallerWrapping .nullValue = false
    ∧ (∀ (method : String) (hasE : Bool) (p : JSValue)
        (during after : List VendorSignal),
        during ++ after = [.success p] →
        execWrapRun method true hasE ⟨during, .ok .undef, after⟩
          = ([.callerSuccess p, .settled (.ok p)], some (.ok p))) := by
  refine ⟨fun _ _ => rfl, rfl, rfl, rfl, ?_⟩
  intro m he p during after hsig
  cases during with
  | nil =>
    simp only [List.nil_append] at hsig
    subst hsig
    rfl
  | cons a t =>
    rw [List.cons_append] at hsig
    injection hsig with h1 h2
    rw [List.append_eq_nil] at h2
    subst h1
    obtain ⟨rfl, rfl⟩ := h2
    rfl

/-- C5 witness: a concrete vendor behaviour that fires the synthetic
success once, after the synchronous call returned `undefined`. -/
theorem c5_exec_wrapping_delivers_payload_once_witness :
    ([] ++ [Bridge.VendorSignal.success (Bridge.JSValue.num 3)]
      = [Bridge.VendorSignal.success (Bridge.JSValue.num 3)])
    ∧ execWrapRun "I_Login" true false
        ⟨[], .ok .undef, [.success (.num 3)]⟩
        = ([.callerSuccess (.num 3), .settled (.ok (.num 3))],
           some (.ok (.num 3))) :=
  ⟨rfl, c5_exec_wrapping_delivers_payload_once.2.2.2.2 "I_Login" false
    (.num 3) [] [.success (.num 3)] rfl⟩

end Hik.Bridge

namespace Hik.Bus

/-- Handlers that return normally pass delivery on to the rest of the
snapshot unchanged. -/
theorem emitDeliver_ok_front (pre rest : List HandlerRun)
    (hpre : ∀ g ∈ pre, g.outcome = .ok ()) :
    emitDeliver (pre ++ rest)
      = (pre.map HandlerRun.hid ++ (emitDeliver rest).1,
         (emitDeliver rest).2) := by
  induction pre with
  | nil => simp
  | cons a t ih =>
    have ha : a.outcome = .ok () := hpre a (by simp)
    have ht : ∀ g ∈ t, g.outcome = .ok () := fun g hg => hpre g (by simp [hg])
    simp [emitDeliver, ha, ih ht]

/-- A snapshot whose handlers all return normally is delivered in full. -/
theorem emitDeliver_all_ok (hs : List HandlerRun)
    (h : ∀ g ∈ hs, g.outcome = .ok ()) :
    emitDeliver hs = (hs.map HandlerRun.hid, none) := by
  have := emitDeliver_ok_front hs [] h
  simpa [emitDeliver] using this

/-- Projecting the handler identities back out of a wrapped snapshot gives
the snapshot. -/
theorem map_hid_mk (f : HandlerId → Except Nat Unit) (l : List HandlerId) :
    (l.map (fun h => (⟨h, f h⟩ : HandlerRun))).map HandlerRun.hid = l := by
  induction l with
  | nil => rfl
  | cons a t ih => simp [ih]

/-- C4 counterexample: an event with two subscribed handlers where the
first one throws.  `emit` invokes only the first handler and lets the
exception escape; the second subscribed handler is never invoked, so the
claim that every handler subscribed at the start of the emit is invoked is
false on this input. -/
theorem c4_cex_throwing_handler_stops_delivery :
    busEmitRun cexOutcome cexBus "plugin:event" = ([1], some 7)
    ∧ ¬ (∀ h ∈ busGet cexBus "plugin:event",
          h ∈ (busEmitRun cexOutcome cexBus "plugin:event").1) := by
  constructor
  · decide
  · decide

/-- C4 amended: `EventBus.emit` delivers to the snapshot in order only up
to and including the first handler that throws; that handler's exception
prevents delivery to all remaining handlers of the publish call and
escapes from `emit`.  When no handler throws, every handler subscribed at
the start of the emit is invoked, in order. -/
theorem c4_amended_emit_stops_at_first_throw :
    (∀ (f : HandlerId → Except Nat Unit) (bus : BusState) (e : String)
        (ids1 : List HandlerId) (h : HandlerId) (ids2 : List HandlerId)
        (ex : Nat),
        busGet bus e = ids1 ++ h :: ids2 →
        (∀ g ∈ ids1, f g = .ok ()) →
        f h = .error ex →
        busEmitRun f bus e = (ids1 ++ [h], some ex))
    ∧ (∀ (f : HandlerId → Except Nat Unit) (bus : BusState) (e : String),
        (∀ g ∈ busGet bus e, f g = .ok ()) →
        busEmitRun f bus e = (busGet bus e, none)) := by
  constructor
  · intro f bus e ids1 h ids2 ex hget hok hthrow
    unfold busEmitRun
    rw [hget, List.map_append, List.map_cons]
    rw [emitDeliver_ok_front _ _
      (by intro g hg
          obtain ⟨x, hx, rfl⟩ := List.mem_map.mp hg
          exact hok x hx)]
    have hstop : emitDeliver
        (⟨h, f h⟩ :: ids2.map (fun x => (⟨x, f x⟩ : HandlerRun)))
        = ([h], some ex) := by
      simp [emitDeliver, hthrow]
    rw [hstop, map_hid_mk]
  · intro f bus e hok
    unfold busEmitRun
    rw [emitDeliver_all_ok _
      (by intro g hg
          obtain ⟨x, hx, rfl⟩ := List.mem_map.mp hg
          exact hok x hx)]
    rw [map_hid_mk]

/-- C4 witness: the amended behaviour at the concrete two-handler bus. -/
theorem c4_amended_emit_stops_at_first_throw_witness :
    (busGet cexBus "plugin:event" = [] ++ 1 :: [2])
    ∧ (∀ g ∈ ([] : List HandlerId), cexOutcome g = .ok ())
    ∧ cexOutcome 1 = .error 7
    ∧ busEmitRun cexOutcome cexBus "plugin:event" = ([] ++ [1], some 7) :=
  ⟨by decide, by simp, by decide,
    c4_amended_emit_stops_at_first_throw.1 cexOutcome cexBus "plugin:event"
      [] 1 [2] 7 (by decide) (by simp) (by decide)⟩

/-- Lookup after update reads the value just written. -/
theorem busGet_busSet (bus : BusState) (e : String) (v : List HandlerId) :
    busGet (busSet bus e v) e = v := by
  induction bus with
  | nil => simp [busSet, busGet]
  | cons p rest ih =>
    obtain ⟨k, w⟩ := p
    by_cases h : k = e
    · simp [busSet, busGet, h]
    · simp [busSet, busGet, h, ih]

/-- Updating the same key twice keeps only the second value. -/
theorem busSet_busSet (bus : BusState) (e : String)
    (v v' : List HandlerId) : busSet (busSet bus e v) e v' = busSet bus e v' := by
  induction bus with
  | nil => simp [busSet]
  | cons p rest ih =>
    obtain ⟨k, w⟩ := p
    by_cases h : k = e
    · simp [busSet, h]
    · simp [busSet, h, ih]

/-- The handler set always contains a handler just added. -/
theorem addHandler_mem (l : List HandlerId) (h : HandlerId) :
    h ∈ addHandler l h := by
  by_cases hm : h ∈ l <;> simp [addHandler, hm]

/-- Adding a handler twice is the same as adding it once. -/
theorem addHandler_idem (l : List HandlerId) (h : HandlerId) :
    addHandler (addHandler l h) h = addHandler l h := by
  show (if h ∈ addHandler l h then addHandler l h else addHandler l h ++ [h])
    = addHandler l h
  rw [if_pos (addHandler_mem l h)]

/-- Adding preserves duplicate-freedom. -/
theorem addHandler_nodup (l : List HandlerId) (h : HandlerId)
    (hl : l.Nodup) : (addHandler l h).Nodup := by
  by_cases hm : h ∈ l
  · simpa [addHandler, hm] using hl
  · simp [addHandler, hm, List.nodup_append, hl]

/-- A handler occurs exactly once after being added to a duplicate-free
set. -/
theorem count_addHandler (l : List HandlerId) (h : HandlerId)
    (hl : l.Nodup) : (addHandler l h).count h = 1 := by
  by_cases hm : h ∈ l
  · simp [addHandler, hm, List.count_eq_one_of_mem hl hm]
  · simp [addHandler, hm, List.count_append,
      List.count_eq_zero_of_not_mem hm]

/-- In a well-formed bus every handler set is duplicate-free. -/
theorem busWF_get (bus : BusState) (e : String) (hwf : busWF bus) :
    (busGet bus e).Nodup := by
  induction bus with
  | nil => simp [busGet]
  | cons p rest ih =>
    obtain ⟨k, v⟩ := p
    by_cases h : k = e
    · simpa [busGet, h] using hwf (k, v) (by simp)
    · simpa [busGet, h] using
        ih (fun q hq => hwf q (List.mem_cons_of_mem _ hq))

/-- The delivery loop iterates exactly the snapshot taken at the start of
the emit, whatever the handlers do to the bus meanwhile. -/
theorem deliverAll_invoked (effect : HandlerId → BusState → BusState)
    (pending : List HandlerId) (b : BusState) :
    (deliverAll effect pending b).2 = pending := by
  induction pending generalizing b with
  | nil => rfl
  | cons h t ih => simp [deliverAll, ih]

/-- C7: handler registration has set semantics — subscribing the same
handler twice to the same event leaves the bus in exactly the state of a
single subscription, and a publish after the double subscription invokes
the handler exactly once; and `emit` iterates a snapshot of the handler
set taken at the start of the publish, so handlers mutating the bus during
delivery (subscribing or unsubscribing) change neither which handlers nor
how often that in-progress publish invokes. -/
theorem c7_on_set_semantics_emit_snapshot :
    (∀ (effect : HandlerId → BusState → BusState) (bus : BusState)
        (e : String) (h : HandlerId),
        busWF bus →
        ((busEmit effect (busOn (busOn bus e h) e h) e).2).count h = 1)
    ∧ (∀ (effect : HandlerId → BusState → BusState) (bus : BusState)
        (e : String), (busEmit effect bus e).2 = busGet bus e)
    ∧ (∀ (bus : BusState) (e : String) (h : HandlerId),
        busOn (busOn bus e h) e h = busOn bus e h) := by
  have hsnap : ∀ (effect : HandlerId → BusState → BusState) (bus : BusState)
      (e : String), (busEmit effect bus e).2 = busGet bus e := by
    intro effect bus e
    exact deliverAll_invoked effect (busGet bus e) bus
  have hidem : ∀ (bus : BusState) (e : String) (h : HandlerId),
      busOn (busOn bus e h) e h = busOn bus e h := by
    intro bus e h
    unfold busOn
    rw [busGet_busSet, addHandler_idem, busSet_busSet]
  refine ⟨?_, hsnap, hidem⟩
  intro effect bus e h hwf
  rw [hsnap, hidem]
  unfold busOn
  rw [busGet_busSet]
  exact count_addHandler _ _ (busWF_get bus e hwf)

/-- C7 witness: double subscription on a concrete well-formed bus delivers
exactly once. -/
theorem c7_on_set_semantics_emit_snapshot_witness :
    busWF [("window:selected", [9])]
    ∧ ((busEmit (fun _ b => b)
          (busOn (busOn [("window:selected", [9])] "device:connected" 5)
            "device:connected" 5)
          "device:connected").2).count 5 = 1 :=
  ⟨by simp [busWF],
    c7_on_set_semantics_emit_snapshot.1 (fun _ b => b)
      [("window:selected", [9])] "device:connected" 5 (by simp [busWF])⟩

end Hik.Bus

namespace Hik.Host

/-- C2 counterexample: two `init` calls while the first has not yet
completed.  The claim says the second call must fail immediately and the
vendor `I_InitPlugin` must be invoked exactly once in total; in the code
the guard is only the `initialized` flag, which is still `false` while the
first init is in flight, so the second call raises no error and
`I_InitPlugin` is invoked twice. -/
theorem c2_cex_in_flight_second_init_not_guarded :
    (hostRun initialHostState [.callInit, .callInit]).1.initPluginCalls = 2
    ∧ (hostRun initialHostState [.callInit, .callInit]).2 = [none, none] := by
  constructor
  · decide
  · decide

/-- C2 amended: `PluginHost.init` fails immediately with the
`sdk-initialization` error and without invoking `I_InitPlugin` only once a
previous init has completed (`initialized = true`); while no init has
completed, every `init` call passes the guard and invokes `I_InitPlugin`
again.  In particular, `init` followed by completion followed by `init`
invokes the vendor init exactly once and rejects the second call. -/
theorem c2_amended_init_guarded_only_after_complete :
    (∀ s : HostState, s.initialized = true →
        hostStep s .callInit = (s, some .sdkInitialization))
    ∧ (∀ s : HostState, s.initialized = false →
        hostStep s .callInit
          = ({ s with initPluginCalls := s.initPluginCalls + 1 }, none))
    ∧ (hostRun initialHostState
        [.callInit, .initComplete, .callInit]).1.initPluginCalls = 1
    ∧ (hostRun initialHostState [.callInit, .initComplete, .callInit]).2
        = [none, none, some .sdkInitialization] := by
  refine ⟨?_, ?_, by decide, by decide⟩
  · intro s h
    simp [hostStep, h]
  · intro s h
    simp [hostStep, h]

/-- C2 witness: the amended guard at a concrete Ready state and a concrete
uninitialized state. -/
theorem c2_amended_init_guarded_only_after_complete_witness :
    ((⟨true, 1⟩ : HostState).initialized = true)
    ∧ hostStep ⟨true, 1⟩ .callInit = (⟨true, 1⟩, some .sdkInitialization)
    ∧ ((⟨false, 0⟩ : HostState).initialized = false)
    ∧ hostStep ⟨false, 0⟩ .callInit = (⟨false, 1⟩, none) :=
  ⟨rfl,
    c2_amended_init_guarded_only_after_complete.1 ⟨true, 1⟩ rfl,
    rfl,
    c2_amended_init_guarded_only_after_complete.2.1 ⟨false, 0⟩ rfl⟩

end Hik.Host

namespace Hik.DeviceSvc

/-- Removing a device id from the registry makes membership for it
false. -/
theorem hasDevice_removeDevice (devices : Registry) (deviceId : String) :
    hasDevice (removeDevice devices deviceId) deviceId = false := by
  induction devices with
  | nil => rfl
  | cons p t ih =>
    cases hb : (p.1 == deviceId) with
    | true => simp [removeDevice, hasDevice, hb] at ih ⊢
    | false => simp [removeDevice, hasDevice, hb] at ih ⊢

/-- Every matching window's stop call, and — when its stop call does not
fail — its clear-key call, appears in the cleanup trace. -/
theorem mem_stopStreams (env : DiscEnv) (deviceId : String)
    (w : WindowInfo) (hw : w ∈ env.windows)
    (hmatch : w.szDeviceIdentify = deviceId) :
    DiscStep.callStop w.iIndex ∈ stopStreams env deviceId
    ∧ (env.stopFails w.iIndex = false →
        DiscStep.callSetSecretKey w.iIndex ∈ stopStreams env deviceId) := by
  have hwf : w ∈ env.windows.filter (fun v => v.szDeviceIdentify == deviceId) :=
    List.mem_filter.mpr ⟨hw, by simp [hmatch]⟩
  have hsub : cleanupWindow env w
      ∈ (env.windows.filter (fun v => v.szDeviceIdentify == deviceId)).map
          (cleanupWindow env) :=
    List.mem_map_of_mem _ hwf
  constructor
  · refine List.mem_flatten.mpr ⟨cleanupWindow env w, hsub, ?_⟩
    cases hf : env.stopFails w.iIndex <;> simp [cleanupWindow, hf]
  · intro hok
    refine List.mem_flatten.mpr ⟨cleanupWindow env w, hsub, ?_⟩
    simp [cleanupWindow, hok]

/-- C3: `DeviceService.disconnect(deviceId)` fails with `device-not-found`
when the id is not registered (touching nothing); when the vendor
`I_Logout` result is non-zero it fails with `operation-failed` carrying
the raw result and leaves the registry entry untouched; and on success the
whole per-window cleanup (an `I_Stop`, and — if that did not fail — an
`I_SetSecretKey`, for every window whose recorded device identifier equals
the device id, individual failures swallowed) occurs strictly before the
session is removed from the registry, which in turn precedes the
`device:disconnected` publication. -/
theorem c3_disconnect_error_paths_and_cleanup_order (env : DiscEnv)
    (devices : Registry) (deviceId : String) :
    (hasDevice devices deviceId = false →
      disconnect env devices deviceId
        = (.error ⟨.deviceNotFound, none⟩, devices, []))
    ∧ (hasDevice devices deviceId = true → env.logoutResult ≠ 0 →
      disconnect env devices deviceId
        = (.error ⟨.operationFailed, some env.logoutResult⟩, devices,
            [.callLogout deviceId]))
    ∧ (hasDevice devices deviceId = true → env.logoutResult = 0 →
      (disconnect env devices deviceId).1 = .ok ()
      ∧ hasDevice (disconnect env devices deviceId).2.1 deviceId = false
      ∧ ∃ cleanup,
          (disconnect env devices deviceId).2.2
            = .callLogout deviceId ::
                (cleanup ++ [.registryRemove deviceId,
                  .publishDisconnected deviceId])
          ∧ (∀ w ∈ env.windows, w.szDeviceIdentify = deviceId →
              DiscStep.callStop w.iIndex ∈ cleanup
              ∧ (env.stopFails w.iIndex = false →
                  DiscStep.callSetSecretKey w.iIndex ∈ cleanup))) := by
  refine ⟨?_, ?_, ?_⟩
  · intro hno
    simp [disconnect, hno]
  · intro hyes hnz
    simp [disconnect, hyes, hnz]
  · intro hyes hz
    refine ⟨by simp [disconnect, hyes, hz], ?_, ?_⟩
    · simp [disconnect, hyes, hz, hasDevice_removeDevice]
    · refine ⟨stopStreams env deviceId, by simp [disconnect, hyes, hz], ?_⟩
      intro w hw hmatch
      exact mem_stopStreams env deviceId w hw hmatch

/-- C3 witness: a registered device, a successful logout, and one related
window whose cleanup succeeds. -/
theorem c3_disconnect_error_paths_and_cleanup_order_witness :
    hasDevice [("10.0.0.5_80", ⟨"10.0.0.5_80", "10.0.0.5", 80, "admin"⟩)]
      "10.0.0.5_80" = true
    ∧ ((⟨0, [⟨0, "10.0.0.5_80"⟩], fun _ => false, fun _ => false⟩ :
        DiscEnv).logoutResult = 0)
    ∧ ((disconnect ⟨0, [⟨0, "10.0.0.5_80"⟩], fun _ => false, fun _ => false⟩
          [("10.0.0.5_80", ⟨"10.0.0.5_80", "10.0.0.5", 80, "admin"⟩)]
          "10.0.0.5_80").1 = .ok ()
      ∧ hasDevice (disconnect
          ⟨0, [⟨0, "10.0.0.5_80"⟩], fun _ => false, fun _ => false⟩
          [("10.0.0.5_80", ⟨"10.0.0.5_80", "10.0.0.5", 80, "admin"⟩)]
          "10.0.0.5_80").2.1 "10.0.0.5_80" = false
      ∧ ∃ cleanup,
          (disconnect ⟨0, [⟨0, "10.0.0.5_80"⟩], fun _ => false, fun _ => false⟩
            [("10.0.0.5_80", ⟨"10.0.0.5_80", "10.0.0.5", 80, "admin"⟩)]
            "10.0.0.5_80").2.2
            = .callLogout "10.0.0.5_80" ::
                (cleanup ++ [.registryRemove "10.0.0.5_80",
                  .publishDisconnected "10.0.0.5_80"])
          ∧ (∀ w ∈ [(⟨0, "10.0.0.5_80"⟩ : WindowInfo)],
              w.szDeviceIdentify = "10.0.0.5_80" →
              DiscStep.callStop w.iIndex ∈ cleanup
              ∧ ((fun _ => false : Nat → Bool) w.iIndex = false →
                  DiscStep.callSetSecretKey w.iIndex ∈ cleanup))) :=
  ⟨by decide, rfl,
    (c3_disconnect_error_paths_and_cleanup_order
      ⟨0, [⟨0, "10.0.0.5_80"⟩], fun _ => false, fun _ => false⟩
      [("10.0.0.5_80", ⟨"10.0.0.5_80", "10.0.0.5", 80, "admin"⟩)]
      "10.0.0.5_80").2.2 (by decide) rfl⟩

/-- Length of an index-carrying map. -/
theorem mapWithIndex_length {α β : Type} (f : Nat → α → β) (k : Nat)
    (l : List α) : (mapWithIndex f k l).length = l.length := by
  induction l generalizing k with
  | nil => rfl
  | cons a t ih => simp [mapWithIndex, ih]

/-- Entry `i` of an index-carrying map started at `k` is `f (k + i)` of
entry `i`. -/
theorem mapWithIndex_get? {α β : Type} (f : Nat → α → β) (k i : Nat)
    (l : List α) :
    (mapWithIndex f k l).get? i = (l.get? i).map (f (k + i)) := by
  induction l generalizing k i with
  | nil => simp [mapWithIndex]
  | cons a t ih =>
    cases i with
    | zero => simp [mapWithIndex]
    | succ j =>
      simp only [mapWithIndex, List.get?_cons_succ, ih (k + 1) j]
      rw [show k + 1 + j = k + (j + 1) from by omega]

/-- C8: `getChannels` is best-effort per channel class — it never fails for
a registered device, and a failed class query contributes exactly what an
empty successful query would; digital channels are included exactly when
their online flag text is `"true"` and zero channels exactly when their
enabled text is `"true"`, while analog channels have no online filter; and
an included digital channel lacking an explicit name gets the generated
name `"IPCamera NN"` with the two-digit one-based position in the filtered
list, with `online = true`, `isZero = false` and class `digital`.  The
spec's scenario — a digital query returning one unnamed online entry and
one named offline entry yields exactly `{name: "IPCamera 01", type:
digital, online: true, isZero: false}` — is the final conjunct. -/
theorem c8_getChannels_best_effort_filter_and_naming :
    (∀ (env : ChannelEnv) (devices : Registry) (deviceId : String),
      hasDevice devices deviceId = true →
      ∃ l, getChannels env devices deviceId = .ok l)
    ∧ (∀ (a z : Option (List ChannelNode)) (devices : Registry)
        (deviceId : String),
        getChannels ⟨a, none, z⟩ devices deviceId
          = getChannels ⟨a, some [], z⟩ devices deviceId)
    ∧ (∀ nodes : List ChannelNode,
        (parseDigitalChannels nodes).length
          = (nodes.filter (fun n => n.online == some "true")).length
        ∧ (parseZeroChannels nodes).length
          = (nodes.filter (fun n => n.enabled == some "true")).length
        ∧ (parseAnalogChannels nodes).length = nodes.length)
    ∧ (∀ (nodes : List ChannelNode) (i : Nat) (n : ChannelNode),
        (nodes.filter (fun v => v.online == some "true")).get? i = some n →
        (parseDigitalChannels nodes).get? i
          = some ⟨n.id.getD "", n.name.getD (seqName "IPCamera" i),
              .digital, false, true⟩)
    ∧ (∀ (nodes : List ChannelNode) (i : Nat) (n : ChannelNode),
        nodes.get? i = some n →
        (parseAnalogChannels nodes).get? i
          = some ⟨n.id.getD "", n.name.getD (seqName "Camera" i),
              .analog, false, true⟩)
    ∧ (∀ (nodes : List ChannelNode) (i : Nat) (n : ChannelNode),
        (nodes.filter (fun v => v.enabled == some "true")).get? i = some n →
        (parseZeroChannels nodes).get? i
          = some ⟨n.id.getD "", n.name.getD (seqName "Zero Channel" i),
              .zero, true, true⟩)
    ∧ parseDigitalChannels
        [⟨none, none, some "true", none⟩,
         ⟨some "2", some "Front door", some "false", none⟩]
        = [⟨"", "IPCamera 01", .digital, false, true⟩] := by
  refine ⟨?_, ?_, ?_, ?_, ?_, ?_, ?_⟩
  · intro env devices deviceId hreg
    exact ⟨classChannels parseAnalogChannels env.analogDoc
        ++ classChannels parseDigitalChannels env.digitalDoc
        ++ classChannels parseZeroChannels env.zeroDoc,
      by simp [getChannels, hreg]⟩
  · intro a z devices deviceId
    simp [getChannels, classChannels, parseDigitalChannels, mapWithIndex]
  · intro nodes
    refine ⟨?_, ?_, ?_⟩ <;>
      simp [parseDigitalChannels, parseZeroChannels, parseAnalogChannels,
        mapWithIndex_length]
  · intro nodes i n hget
    have := mapWithIndex_get?
      (fun i n => (⟨n.id.getD "", n.name.getD (seqName "IPCamera" i),
        .digital, false, true⟩ : ChannelInfo)) 0 i
      (nodes.filter (fun v => v.online == some "true"))
    rw [parseDigitalChannels, this, hget]
    simp
  · intro nodes i n hget
    have := mapWithIndex_get?
      (fun i n => (⟨n.id.getD "", n.name.getD (seqName "Camera" i),
        .analog, false, true⟩ : ChannelInfo)) 0 i nodes
    rw [parseAnalogChannels, this, hget]
    simp
  · intro nodes i n hget
    have := mapWithIndex_get?
      (fun i n => (⟨n.id.getD "", n.name.getD (seqName "Zero Channel" i),
        .zero, true, true⟩ : ChannelInfo)) 0 i
      (nodes.filter (fun v => v.enabled == some "true"))
    rw [parseZeroChannels, this, hget]
    simp
  · decide

/-- C8 witness: the registered-device hypothesis discharged at a concrete
registry, and the name-generation hypothesis at the scenario's filtered
list. -/
theorem c8_getChannels_best_effort_filter_and_naming_witness :
    hasDevice [("10.0.0.5_80", ⟨"10.0.0.5_80", "10.0.0.5", 80, "admin"⟩)]
      "10.0.0.5_80" = true
    ∧ (∃ l, getChannels ⟨none, some [⟨none, none, some "true", none⟩], none⟩
        [("10.0.0.5_80", ⟨"10.0.0.5_80", "10.0.0.5", 80, "admin"⟩)]
        "10.0.0.5_80" = .ok l)
    ∧ (([⟨none, none, some "true", none⟩] :
          List ChannelNode).filter (fun v => v.online == some "true")).get? 0
        = some ⟨none, none, some "true", none⟩
    ∧ (parseDigitalChannels [⟨none, none, some "true", none⟩]).get? 0
        = some ⟨"", "IPCamera 01", .digital, false, true⟩ :=
  ⟨by decide,
    c8_getChannels_best_effort_filter_and_naming.1
      ⟨none, some [⟨none, none, some "true", none⟩], none⟩
      [("10.0.0.5_80", ⟨"10.0.0.5_80", "10.0.0.5", 80, "admin"⟩)]
      "10.0.0.5_80" (by decide),
    by decide,
    c8_getChannels_best_effort_filter_and_naming.2.2.2.1
      [⟨none, none, some "true", none⟩] 0 ⟨none, none, some "true", none⟩
      (by decide)⟩

end Hik.DeviceSvc

namespace Hik.Util

/-- Truncation is the identity on integral values. -/
theorem jsTrunc_intCast (v : ℤ) : jsTrunc (v : ℚ) = v := by
  simp [jsTrunc, Rat.num_intCast, Rat.den_intCast, Int.tdiv_one]

/-- The port validity check on an integral value is the integer range
check. -/
theorem isValidPort_intCast (v : ℤ) :
    (isValidPort (.finite (v : ℚ)) = true) ↔ (1 ≤ v ∧ v ≤ 65535) := by
  simp only [isValidPort, isInteger, jsLe, Bool.and_eq_true, beq_iff_eq,
    decide_eq_true_eq, Rat.den_intCast]
  constructor
  · rintro ⟨⟨-, h1⟩, h2⟩
    exact ⟨by exact_mod_cast h1, by exact_mod_cast h2⟩
  · rintro ⟨h1, h2⟩
    exact ⟨⟨trivial, by exact_mod_cast h1⟩, by exact_mod_cast h2⟩

/-- C6 counterexample: `normalizePort(80.5)` returns `80` — it neither
returns the input unchanged nor fails, so the claim that every number is
either returned unchanged (exactly the integral in-range ones) or rejected
is false at `80.5`: the input is silently truncated. -/
theorem c6_cex_normalizePort_silently_truncates :
    normalizePort (.finite eightyAndHalf) = .ok (.finite 80)
    ∧ eightyAndHalf ≠ (80 : ℚ)
    ∧ (¬ ∃ e, normalizePort (.finite eightyAndHalf) = .error e) := by
  refine ⟨by decide, by decide, ?_⟩
  rintro ⟨e, he⟩
  rw [show normalizePort (.finite eightyAndHalf) = .ok (.finite 80) from
    by decide] at he
  exact Except.noConfusion he

/-- C6 amended: `normalizePort(p)` truncates first and validates the
truncated value: for finite `p` it returns `Math.trunc(p)` whenever that
truncation lies in `[1, 65535]` — so an integral in-range `p` is returned
unchanged, but a non-integral `p` whose truncation is in range is silently
truncated rather than rejected — and otherwise fails with a `RangeError`;
non-finite input fails with a `TypeError`.  (The failures are the built-in
`TypeError`/`RangeError`, not the library's `HikSDKError` validation
kind.) -/
theorem c6_amended_normalizePort_truncates_then_validates :
    (∀ q : ℚ, normalizePort (.finite q)
        = if 1 ≤ jsTrunc q ∧ jsTrunc q ≤ 65535
          then .ok (.finite ((jsTrunc q : ℤ) : ℚ))
          else .error .rangeError)
    ∧ (∀ v : ℤ, jsTrunc (v : ℚ) = v)
    ∧ normalizePort .nan = .error .typeError
    ∧ normalizePort .posInf = .error .typeError
    ∧ normalizePort .negInf = .error .typeError := by
  refine ⟨?_, jsTrunc_intCast, rfl, rfl, rfl⟩
  intro q
  by_cases h : 1 ≤ jsTrunc q ∧ jsTrunc q ≤ 65535
  · rw [if_pos h]
    simp only [normalizePort]
    rw [if_pos ((isValidPort_intCast (jsTrunc q)).mpr h)]
  · rw [if_neg h]
    simp only [normalizePort]
    rw [if_neg (fun hc => h ((isValidPort_intCast (jsTrunc q)).mp hc))]

/-- The decimal representation is never empty. -/
theorem natToChars_ne_nil (n : Nat) : natToChars n ≠ [] := by
  rw [natToChars]
  split <;> simp

/-- Every code point of a decimal representation is a digit. -/
theorem natToChars_digit_bounds (n : Nat) :
    ∀ c ∈ natToChars n, 48 ≤ c ∧ c ≤ 57 := by
  induction n using Nat.strong_induction_on with
  | _ n ih =>
    intro c hc
    rw [natToChars] at hc
    split at hc
    · next h =>
      simp only [List.mem_singleton] at hc
      omega
    · next h =>
      rcases List.mem_append.mp hc with hd | hd
      · exact ih (n / 10) (Nat.div_lt_self (by omega) (by omega)) c hd
      · simp only [List.mem_singleton] at hd
        have : n % 10 < 10 := Nat.mod_lt n (by omega)
        omega

/-- Folding the digit-value accumulator over a decimal representation. -/
theorem digitsVal_go (n : Nat) :
    ∀ a, (natToChars n).foldl (fun x c => x * 10 + (c - 48)) a
      = a * 10 ^ (natToChars n).length + n := by
  induction n using Nat.strong_induction_on with
  | _ n ih =>
    intro a
    rw [natToChars]
    split
    · next h =>
      simp only [List.foldl_cons, List.foldl_nil, List.length_singleton,
        pow_one]
      omega
    · next h =>
      rw [List.foldl_append, ih (n / 10) (Nat.div_lt_self (by omega) (by omega)) a]
      simp only [List.foldl_cons, List.foldl_nil, List.length_append,
        List.length_singleton]
      have hmod : 48 + n % 10 - 48 = n % 10 := by omega
      rw [hmod]
      have hdm : n / 10 * 10 + n % 10 = n := by omega
      calc (a * 10 ^ (natToChars (n / 10)).length + n / 10) * 10 + n % 10
          = a * (10 ^ (natToChars (n / 10)).length * 10)
            + (n / 10 * 10 + n % 10) := by ring
        _ = a * 10 ^ ((natToChars (n / 10)).length + 1) + n := by
            rw [pow_succ, hdm]

/-- Parsing the decimal representation of `n` yields `n`. -/
theorem digitsVal_natToChars (n : Nat) : digitsVal (natToChars n) = n := by
  have := digitsVal_go n 0
  simpa [digitsVal] using this

/-- A list all of whose elements satisfy the predicate is its own maximal
prefix. -/
theorem takeWhile_all {α : Type} (p : α → Bool) (l : List α)
    (h : ∀ c ∈ l, p c = true) : l.takeWhile p = l := by
  induction l with
  | nil => rfl
  | cons a t ih =>
    have ha := h a (List.mem_cons_self a t)
    have ht : ∀ c ∈ t, p c = true := fun c hc => h c (List.mem_cons_of_mem _ hc)
    simp [List.takeWhile_cons, ha, ih ht]

/-- Splitting a string that does not contain the separator yields the
string as its only part. -/
theorem jsSplitOn_no_sep (sep : Nat) (l : JsString) (h : sep ∉ l) :
    jsSplitOn sep l = [l] := by
  induction l with
  | nil => rfl
  | cons c cs ih =>
    have hc : ¬ c = sep := fun e => h (by rw [e]; exact List.mem_cons_self _ _)
    have hcs : sep ∉ cs := fun m => h (List.mem_cons_of_mem _ m)
    simp [jsSplitOn, hc, ih hcs]

/-- Splitting at the first separator occurrence peels off the prefix
before it. -/
theorem jsSplitOn_append (sep : Nat) (a b : JsString) (h : sep ∉ a) :
    jsSplitOn sep (a ++ sep :: b) = a :: jsSplitOn sep b := by
  induction a with
  | nil => simp [jsSplitOn]
  | cons c cs ih =>
    have hc : ¬ c = sep := fun e => h (by rw [e]; exact List.mem_cons_self _ _)
    have hcs : sep ∉ cs := fun m => h (List.mem_cons_of_mem _ m)
    simp [jsSplitOn, hc, ih hcs]

/-- `Number.parseInt` inverts the decimal representation. -/
theorem jsParseInt10_natToChars (n : Nat) :
    jsParseInt10 (natToChars n) = some (n : Int) := by
  have hbounds := natToChars_digit_bounds n
  obtain ⟨c, rest, hcr⟩ : ∃ c rest, natToChars n = c :: rest := by
    cases h : natToChars n with
    | nil => exact absurd h (natToChars_ne_nil n)
    | cons c r => exact ⟨c, r, rfl⟩
  have hc := hbounds c (by rw [hcr]; exact List.mem_cons_self _ _)
  have hdigits : (natToChars n).takeWhile isDigitCode = natToChars n :=
    takeWhile_all _ _ (fun d hd => by
      have := hbounds d hd
      simp only [isDigitCode, Bool.and_eq_true, decide_eq_true_eq]
      omega)
  have hparse : parseDigitsOpt (natToChars n) = some n := by
    simp only [parseDigitsOpt, hdigits]
    rw [if_neg (by simp [List.isEmpty_iff, natToChars_ne_nil n])]
    rw [digitsVal_natToChars]
  have h32 : ¬ (c = 32) := by omega
  have h45 : ¬ (c = 45) := by omega
  have h43 : ¬ (c = 43) := by omega
  have hdrop : List.dropWhile (fun x => decide (x = 32)) (c :: rest)
      = c :: rest := by
    rw [List.dropWhile_cons]
    simp [h32]
  simp only [jsParseInt10]
  rw [hcr, hdrop]
  show (if c = 45 then (parseDigitsOpt rest).map (fun m : Nat => -(m : Int))
        else if c = 43 then (parseDigitsOpt rest).map (fun m : Nat => (m : Int))
        else (parseDigitsOpt (c :: rest)).map (fun m : Nat => (m : Int)))
      = some (n : Int)
  rw [if_neg h45, if_neg h43, ← hcr, hparse]
  rfl

/-- C9: `generateDeviceIdentify(host, port)` deterministically produces
`host ++ "_" ++ port`, and for every host that does not contain the
separator `'_'` and every valid port (an integer in `[1, 65535]`),
`parseDeviceIdentify` inverts it exactly, recovering the host and the
port. -/
theorem c9_device_identify_round_trip (host : JsString) (port : Nat)
    (hsep : underscoreCode ∉ host) (h1 : 1 ≤ port) (_h65535 : port ≤ 65535) :
    generateDeviceIdentify host port
      = host ++ underscoreCode :: natToChars port
    ∧ parseDeviceIdentify (generateDeviceIdentify host port)
      = (host, (port : Int)) := by
  refine ⟨rfl, ?_⟩
  have hnd : underscoreCode ∉ natToChars port := by
    intro hm
    have := natToChars_digit_bounds port _ hm
    simp only [underscoreCode] at this
    omega
  simp only [parseDeviceIdentify, generateDeviceIdentify]
  rw [jsSplitOn_append _ _ _ hsep, jsSplitOn_no_sep _ _ hnd]
  simp only [List.headD_cons, List.drop_succ_cons, List.drop_zero,
    List.head?_cons, Option.getD_some, jsParseInt10_natToChars]
  rw [if_neg (by exact_mod_cast Nat.pos_iff_ne_zero.mp h1)]

/-- C9 witness: the round trip at host `"10.0.0.5"` (code points) and
port `80`. -/
theorem c9_device_identify_round_trip_witness :
    underscoreCode ∉ ([49, 48, 46, 48, 46, 48, 46, 53] : JsString)
    ∧ 1 ≤ 80 ∧ 80 ≤ 65535
    ∧ parseDeviceIdentify
        (generateDeviceIdentify [49, 48, 46, 48, 46, 48, 46, 53] 80)
        = ([49, 48, 46, 48, 46, 48, 46, 53], (80 : Int)) :=
  ⟨by decide, by decide, by decide,
    (c9_device_identify_round_trip [49, 48, 46, 48, 46, 48, 46, 53] 80
      (by decide) (by decide) (by decide)).2⟩

end Hik.Util

namespace Hik.Client

/-- C10: every `HikVideoClient` operation that reaches the plugin or a
device — `connectDevice`, `disconnectDevice`, `getDeviceInfo`,
`getChannels`, `startPreview`, `startPlayback`, `ptzControl`,
`startRecording`, `capture`, `setSecretKey`, `changeWindowLayout`,
`getWindowSet` — fails with the `not-initialized` `HikSDKError` and
performs no vendor-plugin call when invoked before `initialize` has
completed; while the registry readers, event subscription and
`supportsNoPlugin` succeed before initialization. -/
theorem c10_guarded_ops_require_initialization :
    (∀ (env : ClientEnv) (op : ClientOp), op ∈ guardedOps →
      runOp false op env = (.error ⟨.notInitialized, none⟩, []))
    ∧ (∀ (env : ClientEnv) (op : ClientOp), op ∈ openOps →
      ∃ t, runOp false op env = (.ok (), t)) := by
  constructor
  · intro env op hop
    simp only [guardedOps, List.mem_cons, List.not_mem_nil, or_false] at hop
    rcases hop with rfl | rfl | rfl | rfl | rfl | rfl | rfl | rfl | rfl | rfl
      | rfl | rfl <;> rfl
  · intro env op hop
    simp only [openOps, List.mem_cons, List.not_mem_nil, or_false] at hop
    rcases hop with rfl | rfl | rfl | rfl | rfl
    · exact ⟨[], rfl⟩
    · exact ⟨[], rfl⟩
    · exact ⟨[], rfl⟩
    · exact ⟨[], rfl⟩
    · exact ⟨["I_SupportNoPlugin"], rfl⟩

/-- C10 witness: the guard at a concrete environment for a guarded
operation and an open one. -/
theorem c10_guarded_ops_require_initialization_witness :
    (ClientOp.connectDevice ∈ guardedOps)
    ∧ runOp false .connectDevice sampleEnv
        = (.error ⟨.notInitialized, none⟩, [])
    ∧ (ClientOp.listDevices ∈ openOps)
    ∧ (∃ t, runOp false .listDevices sampleEnv = (.ok (), t)) :=
  ⟨by decide,
    c10_guarded_ops_require_initialization.1 sampleEnv .connectDevice
      (by decide),
    by decide,
    c10_guarded_ops_require_initialization.2 sampleEnv .listDevices
      (by decide)⟩

end Hik.Client
